import Mathlib

/-!
Verification of the async resource-lifecycle caches of `nautobot-ai-ops`.

Shallow embedding of the cache modules of the repository:

* `ai_ops/helpers/get_middleware.py` — middleware-pipeline cache
  (`_calculate_config_hash`, `_is_cache_valid`, `get_middleware`,
  `clear_middleware_cache`, `get_middleware_cache_stats`);
* `ai_ops/checkpointer.py` — conversation-checkpoint store
  (`clear_checkpointer_for_thread`, `cleanup_expired_checkpoints`);
* `ai_ops/agents/multi_mcp_agent.py` — MCP tool-client cache
  (`get_or_create_mcp_client`);
* `ai_ops/helpers/deep_agent/checkpoint_factory.py` and
  `ai_ops/helpers/deep_agent/store_factory.py` — deep-agent resource
  factories with event-loop affinity tracking.

Conventions of the embedding:

* timestamps and event-loop identifiers are integers (`Int` / `Nat`);
  `datetime.now()` becomes an explicit `now : Int` parameter measured
  in seconds, and `timedelta` comparisons become integer comparisons;
* Python dicts become association lists (`List (κ × ν)`) whose key
  lists are `Nodup` in every reachable state, with `lookupA`,
  `eraseA`, `setA` mirroring `d[k]`, `del d[k]`, `d[k] = v`;
* external resource constructors (Django ORM queries, `MultiServerMCPClient`,
  `AsyncRedisSaver`, connection pools, middleware-class instantiation) are
  parameters of the embedded functions: an `Option`-valued argument whose
  `none` case is the constructor raising an exception;
* opaque resource handles (`Client`, `Stage`, `RedisSaver`, ...) are
  one-field structures with decidable equality, so "the identical resource
  instance" is plain equality of values.
-/

namespace AiOps

/-! Association-list primitives (Python `dict` operations). -/

variable {κ : Type} {ν : Type} [DecidableEq κ]

/-- Python `d[k]` / `d.get(k)`: first binding of `k`, if any. -/
def lookupA (k : κ) : List (κ × ν) → Option ν
  | [] => none
  | (k', v) :: rest => if k' = k then some v else lookupA k rest

/-- Python `del d[k]`: remove the binding of `k` (all of them; key lists are nodup
in every state we build, so this agrees with deleting the single entry). -/
def eraseA (k : κ) : List (κ × ν) → List (κ × ν)
  | [] => []
  | (k', v) :: rest => if k' = k then eraseA k rest else (k', v) :: eraseA k rest

/-- Python `d[k] = v`: update in place, or append a fresh binding. -/
def setA (k : κ) (v : ν) : List (κ × ν) → List (κ × ν)
  | [] => [(k, v)]
  | (k', v') :: rest => if k' = k then (k, v) :: rest else (k', v') :: setA k v rest

theorem lookupA_eraseA_self (k : κ) (l : List (κ × ν)) :
    lookupA k (eraseA k l) = none := by
  induction l with
  | nil => rfl
  | cons p rest ih =>
    obtain ⟨k', v⟩ := p
    by_cases h : k' = k
    · simp [eraseA, h, ih]
    · simp [eraseA, lookupA, h, ih]

theorem lookupA_eraseA_ne (k k' : κ) (l : List (κ × ν)) (h : k' ≠ k) :
    lookupA k (eraseA k' l) = lookupA k l := by
  induction l with
  | nil => rfl
  | cons p rest ih =>
    obtain ⟨k₀, v⟩ := p
    by_cases h0 : k₀ = k'
    · subst h0
      simp [eraseA, lookupA, h, ih]
    · by_cases h1 : k₀ = k
      · simp [eraseA, lookupA, h0, h1, Ne.symm h]
      · simp [eraseA, lookupA, h0, h1, ih]

theorem lookupA_setA_self (k : κ) (v : ν) (l : List (κ × ν)) :
    lookupA k (setA k v l) = some v := by
  induction l with
  | nil => simp [setA, lookupA]
  | cons p rest ih =>
    obtain ⟨k', v'⟩ := p
    by_cases h : k' = k
    · simp [setA, h, lookupA]
    · simp [setA, lookupA, h, ih]

theorem lookupA_setA_ne (k k' : κ) (v : ν) (l : List (κ × ν)) (h : k' ≠ k) :
    lookupA k (setA k' v l) = lookupA k l := by
  induction l with
  | nil => simp [setA, lookupA, h]
  | cons p rest ih =>
    obtain ⟨k₀, v'⟩ := p
    by_cases h0 : k₀ = k'
    · subst h0
      simp [setA, lookupA, h, fun hh : k₀ = k => h (hh ▸ rfl)]
    · by_cases h1 : k₀ = k
      · simp [setA, lookupA, h0, h1, Ne.symm h]
      · simp [setA, lookupA, h0, h1, ih]

/-! Embedding of `ai_ops/helpers/get_middleware.py`, the middleware-pipeline cache.

The module holds one global cache slot `_middleware_cache`
(`llm_model_id`, `middlewares`, `timestamp`, `config_hash`) guarded by the
module-level non-reentrant `asyncio.Lock` `_cache_lock`.  `get_middleware`
runs entirely inside `async with _cache_lock`; we embed its locked body as a
pure function of the cache slot (the serialisation that the lock provides is
modelled explicitly where it matters, see the single-flight and the
`clear_middleware_cache` developments below). -/

/-- A row of the `LLMMiddleware` table as `get_middleware` reads it
(after `.filter(llm_model=…, is_active=True)`): `mw.middleware.name`,
`mw.config`, `mw.priority`, `mw.is_active`, `mw.is_critical`, plus
`mw.config_version` which is used only in error messages and is *not*
part of the fingerprint. -/
structure MWRow where
  name : String
  config : List (String × String)
  priority : Int
  is_active : Bool
  is_critical : Bool
  config_version : Nat
deriving DecidableEq, Repr

/-- The five fields that `_calculate_config_hash` serialises for one row. -/
structure HashEntry where
  name : String
  config : List (String × String)
  priority : Int
  is_active : Bool
  is_critical : Bool
deriving DecidableEq, Repr

/-- The per-row dict appended to `config_data`. -/
def serializeRow (r : MWRow) : HashEntry :=
  { name := r.name, config := r.config, priority := r.priority,
    is_active := r.is_active, is_critical := r.is_critical }

/-- Model of `_calculate_config_hash(middlewares_qs)`: the SHA-256 of the canonical
JSON of `config_data` is modelled as the canonical entry list itself — an
injective abstraction of the (collision-free) hash; the code-relevant content
is exactly which fields of which rows enter the digest. -/
def calculateConfigHash (qs : List MWRow) : List HashEntry :=
  qs.map serializeRow

/-- An instantiated middleware object (opaque handle). -/
structure Stage where
  id : Nat
deriving DecidableEq, Repr

/-- The global `_middleware_cache` dict. -/
structure MwCache where
  llm_model_id : Option Int
  middlewares : List Stage
  timestamp : Option Int
  config_hash : Option (List HashEntry)
deriving DecidableEq, Repr

/-- The module-initialisation value of `_middleware_cache`. -/
def initMwCache : MwCache :=
  { llm_model_id := none, middlewares := [], timestamp := none,
    config_hash := none }

def CACHE_TTL_SECONDS : Int := 300

/-- Check `_is_cache_valid(llm_model_id, config_hash)` read against the global
cache slot `c` at time `now`. -/
def isCacheValid (c : MwCache) (llm_model_id : Int)
    (config_hash : List HashEntry) (now : Int) : Bool :=
  if c.llm_model_id ≠ some llm_model_id then false
  else if c.config_hash ≠ some config_hash then false
  else
    match c.timestamp with
    | none => false
    | some ts => now - ts < CACHE_TTL_SECONDS

/-- The instantiation loop of `get_middleware`: for each row, import the
middleware class and call `middleware_class(**mw.config)` (abstracted as
`inst`, whose `none` means the `try` block raised); on failure a critical
row raises (`Except.error`), a non-critical one is logged and skipped. -/
def buildStages (inst : MWRow → Option Stage) : List MWRow → Except Unit (List Stage)
  | [] => .ok []
  | r :: rest =>
    match inst r with
    | some st =>
      match buildStages inst rest with
      | .ok sts => .ok (st :: sts)
      | .error e => .error e
    | none =>
      if r.is_critical then .error () else buildStages inst rest

/-- Result of one `get_middleware` call: the returned value (or the
propagated critical-failure exception), the cache slot afterwards, and
whether the rebuild path ran (false = served from cache). -/
structure MwOut where
  result : Except Unit (List Stage)
  cache : MwCache
  rebuilt : Bool
deriving Repr

/-- Locked body of `get_middleware(llm_model, force_refresh)`.
`qs` is the queryset
`LLMMiddleware.objects.filter(llm_model=llm_model, is_active=True)
.order_by("priority", "middleware__name")` in the order the database
returned it; `modelId` is `llm_model.id`. -/
def getMiddleware (c : MwCache) (modelId : Int) (qs : List MWRow)
    (inst : MWRow → Option Stage) (now : Int) (force_refresh : Bool) : MwOut :=
  let config_hash := calculateConfigHash qs
  if !force_refresh && isCacheValid c modelId config_hash now then
    { result := .ok c.middlewares, cache := c, rebuilt := false }
  else
    match buildStages inst qs with
    | .error e => { result := .error e, cache := c, rebuilt := true }
    | .ok stages =>
      { result := .ok stages,
        cache := { llm_model_id := some modelId, middlewares := stages,
                   timestamp := some now, config_hash := some config_hash },
        rebuilt := true }

/-! Embedding of `_cache_lock` and the operations that nest under it.

`_cache_lock` is a module-level `asyncio.Lock`, which is **not reentrant**:
a task that acquires it twice waits on itself forever.  For
`clear_middleware_cache` / `get_middleware_cache_stats` the nesting of the
lock is the whole point, so these two are embedded over a state that carries
the lock bit.  Under the single-threaded cooperative scheduler, acquiring a
lock that is already held — with no other task able to release it — never
completes: the embedding returns `none` for "this call never returns". -/

/-- The `get_middleware` module state: the `_cache_lock` bit plus the
`_middleware_cache` slot. -/
structure MwModule where
  lock : Bool
  cache : MwCache
deriving DecidableEq, Repr

/-- Body of `get_middleware_cache_stats()`: `async with _cache_lock:` then read the
slot (the dict of statistics it builds is irrelevant here and collapsed to
`Unit`).  Returns `none` when the acquire blocks forever. -/
def getMiddlewareCacheStats (m : MwModule) : Option (Unit × MwModule) :=
  if m.lock then none
  else some ((), m)

/-- Body of `clear_middleware_cache()`: `async with _cache_lock:` then
`stats = await get_middleware_cache_stats()` — a second acquire of the same
non-reentrant lock — then reset the slot to its initial value. -/
def clearMiddlewareCache (m : MwModule) : Option (Unit × MwModule) :=
  if m.lock then none
  else
    match getMiddlewareCacheStats { m with lock := true } with
    | none => none
    | some (stats, _) =>
      some (stats, { lock := false, cache := initMwCache })

/-! Embedding of `ai_ops/checkpointer.py`, the conversation-checkpoint store.

Globals: `_memory_saver_instance : Option MemorySaver` and
`_checkpoint_timestamps : dict`.  `MemorySaver` is external (langgraph); the
repository's code and its tests (`test_helpers.py`) treat its `.storage` as
a dict keyed by tuples whose first component is the thread id, and treat
`MemorySaver.aget(config)` as returning a checkpoint exactly when the thread
has one.  The storage is modelled accordingly: keys are `List String`
(Python tuples of strings), values are opaque blobs. -/

/-- A `MemorySaver.storage` key: a tuple `(thread_id, …)`. -/
abbrev ThreadKey := List String

/-- The dict `MemorySaver.storage`. -/
abbrev CkptStorage := List (ThreadKey × String)

/-- The dict `_checkpoint_timestamps`. -/
abbrev CkptTimestamps := List (ThreadKey × Int)

/-- External `MemorySaver.aget({"configurable": {"thread_id": tid}})`,
modelled from how the repository uses it: a checkpoint exists for `tid`
exactly when some storage key has first component `tid`. -/
def memorySaverAget (stor : CkptStorage) (tid : String) : Option Unit :=
  if stor.any (fun p => p.1.head? = some tid) then some () else none

/-- The key filter of `clear_checkpointer_for_thread`:
`isinstance(key, tuple) and len(key) > 0 and key[0] == thread_id`. -/
def keyMatchesThread (tid : String) (k : ThreadKey) : Bool :=
  k.head? = some tid

/-- Delete every storage entry whose key matches the thread. -/
def eraseThreadKeys (tid : String) : CkptStorage → CkptStorage
  | [] => []
  | (k, v) :: rest =>
    if keyMatchesThread tid k then eraseThreadKeys tid rest
    else (k, v) :: eraseThreadKeys tid rest

/-- Result of `clear_checkpointer_for_thread`. -/
structure ClearThreadOut where
  returned : Bool
  saver : Option CkptStorage
  tstamps : CkptTimestamps
deriving DecidableEq, Repr

/-- Model of `clear_checkpointer_for_thread(thread_id)`.  `saver` is
`_memory_saver_instance` (`none` = no instance).  Mirrors the source:
no instance → `False`; `aget` finds nothing → `False`; otherwise collect
`keys_to_delete` by the tuple filter, delete them, drop the
`(thread_id,)` timestamp, and return whether anything was deleted. -/
def clearCheckpointerForThread (saver : Option CkptStorage)
    (ts : CkptTimestamps) (tid : String) : ClearThreadOut :=
  match saver with
  | none => { returned := false, saver := none, tstamps := ts }
  | some stor =>
    match memorySaverAget stor tid with
    | none => { returned := false, saver := some stor, tstamps := ts }
    | some _ =>
      let keys_to_delete := (stor.map Prod.fst).filter (keyMatchesThread tid)
      let stor' := eraseThreadKeys tid stor
      let cleared := !keys_to_delete.isEmpty
      let ts' := eraseA [tid] ts
      { returned := cleared, saver := some stor', tstamps := ts' }

/-! Embedding of `cleanup_expired_checkpoints`. -/

/-- State threaded through the sweep loop of `cleanup_expired_checkpoints`:
the storage, the timestamp table, and `deleted_count`. -/
structure SweepSt where
  storage : CkptStorage
  tstamps : CkptTimestamps
  deleted : Nat
deriving DecidableEq, Repr

/-- One iteration of the `for thread_key in thread_keys:` loop
(`θ` is `ttl_threshold` in seconds): a key with a recorded timestamp is
deleted when `now - last_write > θ`; a key with no record is back-filled
with `last_write = now`. -/
def sweepStep (now θ : Int) (st : SweepSt) (k : ThreadKey) : SweepSt :=
  match lookupA k st.tstamps with
  | some t =>
    if now - t > θ then
      { storage := eraseA k st.storage, tstamps := eraseA k st.tstamps,
        deleted := st.deleted + 1 }
    else st
  | none => { st with tstamps := setA k now st.tstamps }

/-- The sweep loop over the snapshot `list(storage.keys())`. -/
def runSweep (now θ : Int) (st : SweepSt) (ks : List ThreadKey) : SweepSt :=
  ks.foldl (sweepStep now θ) st

/-- Structured result dict of `cleanup_expired_checkpoints`. -/
structure CleanupResult where
  success : Bool
  processed_count : Nat
  deleted_count : Nat
deriving DecidableEq, Repr

/-- Full effect of one `cleanup_expired_checkpoints(ttl_minutes)` call.
`saver`/`tstamps`/`mw` are the module states after the call;
`returns = none` means the call never returns (it is blocked inside
`loop.run_until_complete(clear_middleware_cache())`). -/
structure CleanupOut where
  saver : Option CkptStorage
  tstamps : CkptTimestamps
  mw : MwModule
  returns : Option CleanupResult
deriving Repr

/-- Model of `cleanup_expired_checkpoints(ttl_minutes)`:
`ttl_threshold = timedelta(minutes=ttl_minutes) + timedelta(seconds=30)`;
sweep every storage key; then, when `deleted_count > 0`, run
`clear_middleware_cache()` on a fresh event loop before returning. -/
def cleanupExpiredCheckpoints (saver : Option CkptStorage)
    (ts : CkptTimestamps) (mw : MwModule) (now : Int) (ttl_minutes : Int) :
    CleanupOut :=
  match saver with
  | none =>
    { saver := none, tstamps := ts, mw := mw,
      returns := some { success := false, processed_count := 0, deleted_count := 0 } }
  | some stor =>
    let θ := ttl_minutes * 60 + 30
    let final := runSweep now θ ⟨stor, ts, 0⟩ (stor.map Prod.fst)
    let processed := (stor.map Prod.fst).length
    if final.deleted > 0 then
      match clearMiddlewareCache mw with
      | none =>
        -- `run_until_complete` never completes: the sweep's deletions have
        -- already mutated the globals, but the call never returns.
        { saver := some final.storage, tstamps := final.tstamps, mw := mw,
          returns := none }
      | some (_, mw') =>
        { saver := some final.storage, tstamps := final.tstamps, mw := mw',
          returns := some { success := true, processed_count := processed,
                            deleted_count := final.deleted } }
    else
      { saver := some final.storage, tstamps := final.tstamps, mw := mw,
        returns := some { success := true, processed_count := processed,
                          deleted_count := final.deleted } }

/-! Embedding of `ai_ops/agents/multi_mcp_agent.py`, the MCP tool-client cache.

Global `_mcp_client_cache` dict (`client`, `tools`, `timestamp`,
`server_count`) guarded by the per-event-loop lock obtained from
`get_or_create_event_loop_lock(_cache_lock, "mcp_cache_lock")`.  The whole
body of `get_or_create_mcp_client` runs under that lock; its locked body is
embedded as a pure function.  External collaborators become parameters:

* `ttlOpt` — `LLMModel.get_default_model().cache_ttl`, `none` when the
  lookup raised (the code then falls back to `300`);
* `servers` — the queryset of enabled, healthy `MCPServer` rows (the
  health-check subsystem); the embedded function reports in `queried`
  whether this query was executed by the call;
* `build` — `MultiServerMCPClient(connections)` plus
  `await client.get_tools()`, `none` when that raised. -/

/-- An opaque `MultiServerMCPClient` handle. -/
structure Client where
  id : Nat
deriving DecidableEq, Repr

/-- An opaque discovered-tool descriptor. -/
structure Tool where
  name : String
deriving DecidableEq, Repr

/-- The global `_mcp_client_cache` dict. -/
structure McpCache where
  client : Option Client
  tools : List Tool
  timestamp : Option Int
  server_count : Nat
deriving DecidableEq, Repr

/-- Module-initialisation value of `_mcp_client_cache` (`tools` starts as
`None`, modelled as the empty list — it is only ever read after being set). -/
def initMcpCache : McpCache :=
  { client := none, tools := [], timestamp := none, server_count := 0 }

/-- Result of one `get_or_create_mcp_client` call: the returned
`(client, tools)` pair, the cache afterwards, and whether the server table
(the health-check subsystem) was queried during the call. -/
structure McpOut where
  client : Option Client
  tools : List Tool
  cache : McpCache
  queried : Bool
deriving DecidableEq, Repr

/-- Rebuild path of `get_or_create_mcp_client`: query the server table, then
either cache the negative result, cache a construction failure as
`(None, [])`, or cache the built client. -/
def mcpRebuild (now : Int) (servers : List String)
    (build : Option (Client × List Tool)) : McpOut :=
  if servers.isEmpty then
    { client := none, tools := [],
      cache := { client := none, tools := [], timestamp := some now,
                 server_count := 0 },
      queried := true }
  else
    match build with
    | some (cl, tls) =>
      { client := some cl, tools := tls,
        cache := { client := some cl, tools := tls, timestamp := some now,
                   server_count := servers.length },
        queried := true }
    | none =>
      { client := none, tools := [],
        cache := { client := none, tools := [], timestamp := some now,
                   server_count := 0 },
        queried := true }

/-- Locked body of `get_or_create_mcp_client(force_refresh)` at time `now`.

Source structure: resolve the TTL (fallback 300 on failure); serve from
cache when `not force_refresh and client is not None and
(now - timestamp).total_seconds() < ttl`; otherwise query the healthy
servers — empty set caches the negative result `(None, [])` with
`timestamp = now`; a construction failure is caught, logged, and likewise
recorded as `(None, [])` with `timestamp = now`; success caches the client
and tools.  (A state with a client but no timestamp would raise in the age
subtraction and be swallowed by the outer handler; such a state is
unreachable, and the embedding returns `(None, [])` without touching the
cache there, matching the outer `except` path.) -/
def getOrCreateMcpClient (c : McpCache) (force_refresh : Bool) (now : Int)
    (ttlOpt : Option Int) (servers : List String)
    (build : Option (Client × List Tool)) : McpOut :=
  let cache_ttl_seconds := ttlOpt.getD 300
  match c.client, c.timestamp with
  | some cl, some ts =>
    if !force_refresh && (now - ts < cache_ttl_seconds) then
      { client := some cl, tools := c.tools, cache := c, queried := false }
    else
      mcpRebuild now servers build
  | some _, none =>
    -- unreachable in any state this module produces: `datetime` arithmetic
    -- on `None` raises and the outer handler returns `(None, [])`.
    { client := none, tools := [], cache := c, queried := false }
  | none, _ =>
    -- the fast-path guard `client is not None` fails: rebuild (with or
    -- without `force_refresh`).
    mcpRebuild now servers build

/-! Serialised single-flight runs.

`get_or_create_event_loop_lock` itself lives in
`ai_ops/helpers/common/asyncio_utils.py`, which is not part of the sources
(only its callers are).

Modelled from the spec: the SingleFlightLock registry hands out one
mutual-exclusion primitive per `(name, context_id)`; all waiters blocked on
the same key's lock run their critical sections one after another under the
single-threaded cooperative scheduler, and each observes the cache state
left by its predecessor.  `N` concurrent calls on the same key are therefore
embedded as `N` sequential executions of the locked body against the shared
module state. -/

/-- Run of `n` concurrent `get_or_create_mcp_client()` calls (no force-refresh),
serialised by the key's lock at a common instant `now`: returns the list of
`(client, tools)` results in completion order, the final cache, and how
many of the calls ran the rebuild path (queried the server table and
constructed a client). -/
def mcpSerialized (now : Int) (ttlOpt : Option Int) (servers : List String)
    (build : Option (Client × List Tool)) :
    Nat → McpCache → List (Option Client × List Tool) × McpCache × Nat
  | 0, c => ([], c, 0)
  | n + 1, c =>
    let o := getOrCreateMcpClient c false now ttlOpt servers build
    let (rs, cfin, k) := mcpSerialized now ttlOpt servers build n o.cache
    ((o.client, o.tools) :: rs, cfin, (if o.queried then 1 else 0) + k)

/-- Run of `n` concurrent `get_middleware(llm_model)` calls (no force-refresh),
serialised by `_cache_lock` at a common instant `now` over the same
queryset: returns the results in completion order, the final cache slot,
and how many of the calls ran the rebuild path. -/
def mwSerialized (modelId : Int) (qs : List MWRow)
    (inst : MWRow → Option Stage) (now : Int) :
    Nat → MwCache → List (Except Unit (List Stage)) × MwCache × Nat
  | 0, c => ([], c, 0)
  | n + 1, c =>
    let o := getMiddleware c modelId qs inst now false
    let (rs, cfin, k) := mwSerialized modelId qs inst now n o.cache
    (o.result :: rs, cfin, (if o.rebuilt then 1 else 0) + k)

/-! Embedding of `ai_ops/helpers/deep_agent/checkpoint_factory.py`.

Globals: `_redis_checkpointers`, `_checkpointer_event_loops`,
`_connection_pools`, `_pool_creation_times`, `_pool_event_loops`, all keyed
by agent name.  External constructors are parameters:
`redisAttempt` models `AsyncRedisSaver(redis_url, ttl=…)` +
`await checkpointer.asetup()` (`none` = raised), `pgPoolAttempt` models
building the conninfo, creating the `AsyncConnectionPool` and
`await pool.open()` (`none` = raised), `pgSetupOk` models
`await AsyncPostgresSaver(pool).setup()`.  `closeOk` is whether closing a
stale resource succeeds; the source wraps every close in
`try/except` + logging, so it must never influence anything. -/

/-- Opaque `AsyncRedisSaver` handle. -/
structure RedisSaver where
  id : Nat
deriving DecidableEq, Repr

/-- Opaque `AsyncConnectionPool` handle. -/
structure PgPool where
  id : Nat
deriving DecidableEq, Repr

/-- What `get_checkpointer` hands back: a Redis saver, or a Postgres saver
wrapping a pooled connection (the `AsyncPostgresSaver` is built afresh on
every call, so the cached resource is the pool). -/
inductive Ckpt where
  | redis (s : RedisSaver)
  | postgres (pool : PgPool)
deriving DecidableEq, Repr

/-- The module-level dicts of `checkpoint_factory.py`. -/
structure CkptState where
  redis_checkpointers : List (String × RedisSaver)
  checkpointer_event_loops : List (String × Nat)
  connection_pools : List (String × PgPool)
  pool_creation_times : List (String × Int)
  pool_event_loops : List (String × Nat)
deriving DecidableEq, Repr

/-- Environment of one `get_checkpointer` call.  `redisUrl` is whether
`CHECKPOINT_REDIS_URL`/`REDIS_URL` is set; `currentLoopId` is
`id(asyncio.get_running_loop())` (always available inside a coroutine);
`authMethod` is `DB_AUTH_METHOD` (lower-cased, default `"basic"`). -/
structure CkptEnv where
  redisUrl : Bool
  currentLoopId : Nat
  redisAttempt : Option RedisSaver
  pgPoolAttempt : Option PgPool
  pgSetupOk : Bool
  authMethod : String
  now : Int
  closeOk : Bool
deriving DecidableEq, Repr

/-- Result of one `get_checkpointer` call: `result = none` means the call
propagated an exception to the caller; `closedRedis` / `closedPools` are the
stale resources whose close was attempted during the call. -/
structure CkptOut where
  result : Option Ckpt
  state : CkptState
  closedRedis : List RedisSaver
  closedPools : List PgPool
deriving DecidableEq, Repr

/-- The PostgreSQL fallback half of `get_checkpointer` (everything from the
`# Fall back to PostgreSQL` comment down), with the resources already
closed by the Redis half threaded through. -/
def getCheckpointerPg (env : CkptEnv) (s : CkptState) (agent : String)
    (closedR : List RedisSaver) (closedP : List PgPool) : CkptOut :=
  -- recreate the pool when its recorded event loop differs from the current
  let (s, closedP) :=
    match lookupA agent s.connection_pools with
    | some pool =>
      let mismatch :=
        match lookupA agent s.pool_event_loops with
        | some sid => decide (sid ≠ env.currentLoopId)
        | none => false
      if mismatch then
        ({ s with connection_pools := eraseA agent s.connection_pools,
                  pool_creation_times := eraseA agent s.pool_creation_times,
                  pool_event_loops := eraseA agent s.pool_event_loops },
         closedP ++ [pool])
      else (s, closedP)
    | none => (s, closedP)
  -- Azure service-principal token refresh: recreate pools older than 45 min
  let (s, closedP) :=
    if env.authMethod = "service_principal" then
      match lookupA agent s.connection_pools with
      | some pool =>
        let pool_age := env.now - ((lookupA agent s.pool_creation_times).getD env.now)
        if pool_age > 45 * 60 then
          ({ s with connection_pools := eraseA agent s.connection_pools,
                    pool_creation_times := eraseA agent s.pool_creation_times,
                    pool_event_loops := eraseA agent s.pool_event_loops },
           closedP ++ [pool])
        else (s, closedP)
      | none => (s, closedP)
    else (s, closedP)
  -- create the pool if absent
  match lookupA agent s.connection_pools with
  | some pool =>
    if env.pgSetupOk then
      { result := some (.postgres pool), state := s,
        closedRedis := closedR, closedPools := closedP }
    else
      { result := none, state := s,
        closedRedis := closedR, closedPools := closedP }
  | none =>
    -- `_pool_creation_times[agent] = now` runs before `await pool.open()`
    -- in the service-principal case, so a failed open still records it.
    let sTimes :=
      if env.authMethod = "service_principal" then
        { s with pool_creation_times := setA agent env.now s.pool_creation_times }
      else s
    match env.pgPoolAttempt with
    | none =>
      { result := none, state := sTimes,
        closedRedis := closedR, closedPools := closedP }
    | some pool =>
      let s' := { sTimes with
                  connection_pools := setA agent pool sTimes.connection_pools,
                  pool_event_loops := setA agent env.currentLoopId sTimes.pool_event_loops }
      if env.pgSetupOk then
        { result := some (.postgres pool), state := s',
          closedRedis := closedR, closedPools := closedP }
      else
        { result := none, state := s',
          closedRedis := closedR, closedPools := closedP }

/-- Model of `get_checkpointer(agent_name)`. -/
def getCheckpointer (env : CkptEnv) (s : CkptState) (agent : String) : CkptOut :=
  if env.redisUrl then
    match lookupA agent s.redis_checkpointers with
    | none =>
      match env.redisAttempt with
      | some ck =>
        { result := some (.redis ck),
          state := { s with
            redis_checkpointers := setA agent ck s.redis_checkpointers,
            checkpointer_event_loops :=
              setA agent env.currentLoopId s.checkpointer_event_loops },
          closedRedis := [], closedPools := [] }
      | none => getCheckpointerPg env s agent [] []
    | some old =>
      let mismatch :=
        match lookupA agent s.checkpointer_event_loops with
        | some sid => decide (sid ≠ env.currentLoopId)
        | none => false
      if mismatch then
        -- close the old checkpointer (best-effort; `env.closeOk` ignored)
        match env.redisAttempt with
        | some ck =>
          { result := some (.redis ck),
            state := { s with
              redis_checkpointers := setA agent ck s.redis_checkpointers,
              checkpointer_event_loops :=
                setA agent env.currentLoopId s.checkpointer_event_loops },
            closedRedis := [old], closedPools := [] }
        | none =>
          let s' := { s with
            redis_checkpointers := eraseA agent s.redis_checkpointers,
            checkpointer_event_loops := eraseA agent s.checkpointer_event_loops }
          getCheckpointerPg env s' agent [old] []
      else
        { result := some (.redis old), state := s,
          closedRedis := [], closedPools := [] }
  else
    getCheckpointerPg env s agent [] []

/-! Embedding of `ai_ops/helpers/deep_agent/store_factory.py`.

Globals: `_redis_stores`, `_store_event_loops`, `_memory_stores`.
`storeAttempt` models `AsyncRedisStore(redis_url)` + `await store.setup()`;
`newMemStore` is the `InMemoryStore()` constructed on the in-memory
fallback path (never fails). -/

/-- Opaque `AsyncRedisStore` handle. -/
structure RedisStore where
  id : Nat
deriving DecidableEq, Repr

/-- Opaque `InMemoryStore` handle. -/
structure MemStore where
  id : Nat
deriving DecidableEq, Repr

/-- What `get_store` returns. -/
inductive Store where
  | redis (s : RedisStore)
  | mem (s : MemStore)
deriving DecidableEq, Repr

/-- The module-level dicts of `store_factory.py`. -/
structure StoreState where
  redis_stores : List (String × RedisStore)
  store_event_loops : List (String × Nat)
  memory_stores : List (String × MemStore)
deriving DecidableEq, Repr

/-- Environment of one `get_store` call. -/
structure StoreEnv where
  redisUrl : Bool
  currentLoopId : Nat
  storeAttempt : Option RedisStore
  newMemStore : MemStore
  closeOk : Bool
deriving DecidableEq, Repr

/-- Result of one `get_store` call (`get_store` never raises: the
in-memory fallback always succeeds). -/
structure StoreOut where
  result : Store
  state : StoreState
  closedStores : List RedisStore
deriving DecidableEq, Repr

/-- The `InMemoryStore` fallback tail of `get_store`. -/
def getStoreMem (env : StoreEnv) (s : StoreState) (agent : String)
    (closed : List RedisStore) : StoreOut :=
  match lookupA agent s.memory_stores with
  | some m => { result := .mem m, state := s, closedStores := closed }
  | none =>
    let s' := { s with memory_stores := setA agent env.newMemStore s.memory_stores }
    { result := .mem env.newMemStore, state := s', closedStores := closed }

/-- Model of `get_store(agent_name)`. -/
def getStore (env : StoreEnv) (s : StoreState) (agent : String) : StoreOut :=
  if env.redisUrl then
    match lookupA agent s.redis_stores with
    | none =>
      match env.storeAttempt with
      | some st =>
        { result := .redis st,
          state := { s with
            redis_stores := setA agent st s.redis_stores,
            store_event_loops := setA agent env.currentLoopId s.store_event_loops },
          closedStores := [] }
      | none => getStoreMem env s agent []
    | some old =>
      let mismatch :=
        match lookupA agent s.store_event_loops with
        | some sid => decide (sid ≠ env.currentLoopId)
        | none => false
      if mismatch then
        -- close the old store (best-effort; `env.closeOk` ignored)
        match env.storeAttempt with
        | some st =>
          { result := .redis st,
            state := { s with
              redis_stores := setA agent st s.redis_stores,
              store_event_loops := setA agent env.currentLoopId s.store_event_loops },
            closedStores := [old] }
        | none =>
          let s' := { s with
            redis_stores := eraseA agent s.redis_stores,
            store_event_loops := eraseA agent s.store_event_loops }
          getStoreMem env s' agent [old]
      else
        { result := .redis old, state := s, closedStores := [] }
  else
    getStoreMem env s agent []

/-! Theorems for the claims. -/

/-- Claim C2.  Critical vs. non-critical stage failure policy: for three active
middleware specs where exactly the second fails to instantiate, a
non-critical second spec yields a two-stage pipeline (stages 1 and 3, the
failure skipped), while a critical second spec makes `get_middleware` raise
and leave the cache slot untouched (no partial pipeline is produced or
cached). -/
theorem critical_vs_noncritical_policy
    (c : MwCache) (modelId : Int) (now : Int)
    (s1 s2 s3 : MWRow) (inst : MWRow → Option Stage) (st1 st3 : Stage)
    (h1 : inst s1 = some st1) (h2 : inst s2 = none) (h3 : inst s3 = some st3)
    (hmiss : isCacheValid c modelId (calculateConfigHash [s1, s2, s3]) now = false) :
    (s2.is_critical = false →
      (getMiddleware c modelId [s1, s2, s3] inst now false).result = .ok [st1, st3] ∧
      (getMiddleware c modelId [s1, s2, s3] inst now false).cache.middlewares = [st1, st3]) ∧
    (s2.is_critical = true →
      (getMiddleware c modelId [s1, s2, s3] inst now false).result = .error () ∧
      (getMiddleware c modelId [s1, s2, s3] inst now false).cache = c) := by
  unfold getMiddleware
  constructor
  · intro hcrit
    simp [hmiss, buildStages, h1, h2, h3, hcrit]
  · intro hcrit
    simp [hmiss, buildStages, h1, h2, h3, hcrit]

/-- Concrete run of claim C2: three specs named A/B/C, instantiation failing
exactly on B. -/
theorem critical_vs_noncritical_policy_witness :
    (fun (instW : MWRow → Option Stage) =>
      instW ⟨"A", [], 1, true, false, 0⟩ = some ⟨1⟩ ∧
      instW ⟨"B", [], 2, true, false, 0⟩ = none ∧
      instW ⟨"C", [], 3, true, false, 0⟩ = some ⟨3⟩ ∧
      (getMiddleware initMwCache 7
        [⟨"A", [], 1, true, false, 0⟩, ⟨"B", [], 2, true, false, 0⟩,
         ⟨"C", [], 3, true, false, 0⟩] instW 0 false).result = .ok [⟨1⟩, ⟨3⟩])
      (fun r => if r.name = "B" then none else some ⟨r.priority.toNat⟩) := by
  refine ⟨by decide, by decide, by decide, ?_⟩
  exact (critical_vs_noncritical_policy initMwCache 7 0 _ _ _
      (fun r => if r.name = "B" then none else some ⟨r.priority.toNat⟩) ⟨1⟩ ⟨3⟩
      (by decide) (by decide) (by decide) (by decide)).1 (by decide) |>.1

/-- Claim C10.  The middleware cache is a single slot, not a per-owner map:
with model B's pipeline cached, a `get_middleware` call for a model A with a
different id never hits the cache (`_is_cache_valid` fails on the stored
model id), runs the rebuild path, and — when the build succeeds — overwrites
B's entry with A's. -/
theorem middleware_cache_single_slot
    (c : MwCache) (aId bId : Int) (hne : aId ≠ bId)
    (hb : c.llm_model_id = some bId)
    (qs : List MWRow) (inst : MWRow → Option Stage) (now : Int) :
    isCacheValid c aId (calculateConfigHash qs) now = false ∧
    (getMiddleware c aId qs inst now false).rebuilt = true ∧
    (∀ sts, buildStages inst qs = .ok sts →
      (getMiddleware c aId qs inst now false).cache =
        { llm_model_id := some aId, middlewares := sts, timestamp := some now,
          config_hash := some (calculateConfigHash qs) }) := by
  have hv : isCacheValid c aId (calculateConfigHash qs) now = false := by
    unfold isCacheValid
    rw [hb]
    simp [Ne.symm hne]
  refine ⟨hv, ?_, ?_⟩
  · unfold getMiddleware
    simp only [hv, Bool.false_and, Bool.and_false]
    cases hbs : buildStages inst qs <;> simp [hbs]
  · intro sts hsts
    unfold getMiddleware
    simp [hv, hsts]

/-- Concrete run of claim C10: model 2's pipeline is cached; a call for model
1 misses and overwrites the slot. -/
theorem middleware_cache_single_slot_witness :
    isCacheValid ⟨some 2, [⟨9⟩], some 0, some []⟩ 1 (calculateConfigHash []) 0 = false ∧
    (getMiddleware ⟨some 2, [⟨9⟩], some 0, some []⟩ 1 [] (fun _ => none) 0 false).cache =
      ⟨some 1, [], some 0, some []⟩ := by
  have h := middleware_cache_single_slot ⟨some 2, [⟨9⟩], some 0, some []⟩ 1 2
    (by decide) rfl [] (fun _ => none) 0
  exact ⟨h.1, h.2.2 [] rfl⟩

/-! Fingerprint invalidation (C3). -/

/-- Replacing position `i` of a list by an element different from the one
there strictly lowers the number of occurrences of the original element. -/
theorem count_set_succ {α : Type} [DecidableEq α] :
    ∀ (L : List α) (i : Nat) (hi : i < L.length) (e' : α),
      e' ≠ L.get ⟨i, hi⟩ →
      (L.set i e').count (L.get ⟨i, hi⟩) + 1 = L.count (L.get ⟨i, hi⟩)
  | [], i, hi, _, _ => absurd hi (by simp)
  | a :: L, 0, _, e', h => by
    simp only [List.get] at h
    simp [List.count_cons, h]
  | a :: L, i + 1, hi, e', h => by
    have hi' : i < L.length := by simpa using hi
    simp only [List.get] at h
    have ih := count_set_succ L i hi' e' h
    have hgl : L.get ⟨i, hi'⟩ = L[i] := rfl
    rw [hgl] at h ih
    simp only [List.set, List.count_cons, List.getElem_cons_succ,
      List.get_eq_getElem]
    by_cases ha : a = L[i] <;> simp [ha] <;> omega

/-- Mapping a function commutes with `List.set`. -/
theorem map_set_comm {α β : Type} (f : α → β) :
    ∀ (L : List α) (i : Nat) (a : α), (L.set i a).map f = (L.map f).set i (f a)
  | [], _, _ => by cases ‹Nat› <;> rfl
  | x :: L, 0, a => rfl
  | x :: L, i + 1, a => by
    simp only [List.set, List.map]
    rw [map_set_comm f L i a]

/-- Exactly one of the four replaceable spec fields (`name`, `config`,
`priority`, `is_critical`) differs between `r` and `r'`; everything else —
including `config_version`, which is not fingerprinted — is unchanged.
(The fifth field, `is_active`, is covered separately: deactivating a row
removes it from the `is_active=True` queryset.) -/
def oneFieldChanged (r r' : MWRow) : Prop :=
  r'.is_active = r.is_active ∧ r'.config_version = r.config_version ∧
  ((r'.name ≠ r.name ∧ r'.config = r.config ∧ r'.priority = r.priority ∧
      r'.is_critical = r.is_critical) ∨
   (r'.name = r.name ∧ r'.config ≠ r.config ∧ r'.priority = r.priority ∧
      r'.is_critical = r.is_critical) ∨
   (r'.name = r.name ∧ r'.config = r.config ∧ r'.priority ≠ r.priority ∧
      r'.is_critical = r.is_critical) ∨
   (r'.name = r.name ∧ r'.config = r.config ∧ r'.priority = r.priority ∧
      r'.is_critical ≠ r.is_critical))

theorem serializeRow_ne_of_oneFieldChanged {r r' : MWRow}
    (h : oneFieldChanged r r') : serializeRow r' ≠ serializeRow r := by
  intro heq
  have hn : r'.name = r.name := congrArg HashEntry.name heq
  have hc : r'.config = r.config := congrArg HashEntry.config heq
  have hp : r'.priority = r.priority := congrArg HashEntry.priority heq
  have hk : r'.is_critical = r.is_critical := congrArg HashEntry.is_critical heq
  rcases h.2.2 with h4 | h4 | h4 | h4
  · exact h4.1 hn
  · exact h4.2.1 hc
  · exact h4.2.2.1 hp
  · exact h4.2.2.2 hk

/-- A queryset obtained by replacing one row's serialised content (in any
database order) hashes differently. -/
theorem hash_ne_of_set (qs qs' : List MWRow) (i : Nat) (hi : i < qs.length)
    (r' : MWRow) (hne : serializeRow r' ≠ serializeRow (qs.get ⟨i, hi⟩))
    (hperm : qs'.Perm (qs.set i r')) :
    calculateConfigHash qs' ≠ calculateConfigHash qs := by
  intro heq
  have him : i < (qs.map serializeRow).length := by simpa using hi
  have hget : (qs.map serializeRow).get ⟨i, him⟩ = serializeRow (qs.get ⟨i, hi⟩) := by
    simp [List.getElem_map]
  set e := serializeRow (qs.get ⟨i, hi⟩) with he
  -- count of `e` drops by one in the replaced list
  have hcount : ((qs.map serializeRow).set i (serializeRow r')).count e + 1 =
      (qs.map serializeRow).count e := by
    have := count_set_succ (qs.map serializeRow) i him (serializeRow r')
      (by rw [hget]; exact hne)
    rwa [hget] at this
  -- but the permutation and the assumed hash equality force equal counts
  have hpm : (qs'.map serializeRow).Perm ((qs.set i r').map serializeRow) :=
    hperm.map serializeRow
  have h1 : (qs'.map serializeRow).count e =
      ((qs.set i r').map serializeRow).count e := hpm.count_eq e
  have h2 : (qs'.map serializeRow).count e = (qs.map serializeRow).count e := by
    have : qs'.map serializeRow = qs.map serializeRow := heq
    rw [this]
  rw [map_set_comm] at h1
  omega

/-- A queryset obtained by dropping one row (in any database order) hashes
differently. -/
theorem hash_ne_of_eraseIdx (qs qs' : List MWRow) (i : Nat) (hi : i < qs.length)
    (hperm : qs'.Perm (qs.eraseIdx i)) :
    calculateConfigHash qs' ≠ calculateConfigHash qs := by
  intro heq
  have hlen1 : qs'.length = (qs.eraseIdx i).length := hperm.length_eq
  have hlen2 : (qs.eraseIdx i).length < qs.length := by
    rw [List.length_eraseIdx_of_lt hi]
    omega
  have hlen3 : (calculateConfigHash qs').length = (calculateConfigHash qs).length := by
    rw [heq]
  simp only [calculateConfigHash, List.length_map] at hlen3
  omega

/-- Claim C3.  Fingerprint invalidation: changing any one field of any active
spec — `name`, `config`, `priority` or `is_critical` replace the row's
serialised entry; flipping `is_active` removes the row from the
`is_active=True` queryset — changes `_calculate_config_hash`, and the next
`get_middleware` call over the changed queryset takes the rebuild path even
with `force_refresh=false` and the cached entry's TTL unexpired. -/
theorem fingerprint_invalidation
    (c : MwCache) (modelId : Int) (qs qs' : List MWRow)
    (inst : MWRow → Option Stage) (now ts : Int) (i : Nat) (hi : i < qs.length)
    (hhash : c.config_hash = some (calculateConfigHash qs))
    (hmodel : c.llm_model_id = some modelId)
    (hts : c.timestamp = some ts) (hfresh : now - ts < CACHE_TTL_SECONDS)
    (hchange :
      (∃ r', oneFieldChanged (qs.get ⟨i, hi⟩) r' ∧ qs'.Perm (qs.set i r')) ∨
      qs'.Perm (qs.eraseIdx i)) :
    calculateConfigHash qs' ≠ calculateConfigHash qs ∧
    isCacheValid c modelId (calculateConfigHash qs') now = false ∧
    (getMiddleware c modelId qs' inst now false).rebuilt = true := by
  have hne : calculateConfigHash qs' ≠ calculateConfigHash qs := by
    rcases hchange with ⟨r', hone, hperm⟩ | hperm
    · exact hash_ne_of_set qs qs' i hi r'
        (serializeRow_ne_of_oneFieldChanged hone) hperm
    · exact hash_ne_of_eraseIdx qs qs' i hi hperm
  have hv : isCacheValid c modelId (calculateConfigHash qs') now = false := by
    unfold isCacheValid
    rw [hhash]
    simp [Ne.symm hne]
  refine ⟨hne, hv, ?_⟩
  unfold getMiddleware
  simp only [hv, Bool.and_false]
  cases hbs : buildStages inst qs' <;> simp [hbs]

/-- Concrete run of claim C3: one active spec, priority changed from 1 to 2;
the fresh, same-model cache entry is nevertheless invalidated. -/
theorem fingerprint_invalidation_witness :
    calculateConfigHash [(⟨"A", [], 2, true, false, 0⟩ : MWRow)] ≠
      calculateConfigHash [(⟨"A", [], 1, true, false, 0⟩ : MWRow)] ∧
    (getMiddleware
        ⟨some 7, [], some 0, some (calculateConfigHash [(⟨"A", [], 1, true, false, 0⟩ : MWRow)])⟩
        7 [(⟨"A", [], 2, true, false, 0⟩ : MWRow)] (fun _ => none) 10 false).rebuilt = true := by
  have h := fingerprint_invalidation
    ⟨some 7, [], some 0, some (calculateConfigHash [(⟨"A", [], 1, true, false, 0⟩ : MWRow)])⟩
    7 [(⟨"A", [], 1, true, false, 0⟩ : MWRow)] [(⟨"A", [], 2, true, false, 0⟩ : MWRow)]
    (fun _ => none) 10 0 0 (by decide) rfl rfl rfl (by decide)
    (Or.inl ⟨⟨"A", [], 2, true, false, 0⟩,
      ⟨rfl, rfl, Or.inr (Or.inr (Or.inl ⟨rfl, rfl, by decide, rfl⟩))⟩,
      List.Perm.refl _⟩)
  exact ⟨h.1, h.2.2⟩

/-! Tool-client cache: negative results and hard failures (C1, C8). -/

/-- Claim C1.  The negative result *is* stored — a first call with zero healthy
servers writes `(None, [], timestamp=now)` into `_mcp_client_cache` — but
the validity check of `get_or_create_mcp_client` demands
`_mcp_client_cache["client"] is not None`, which a negative entry can never
satisfy; a second call one second later (TTL 300s) therefore queries the
server table (the health-check subsystem) again, contradicting the
documented negative-result caching. -/
theorem mcp_negative_result_requeried :
    (getOrCreateMcpClient initMcpCache false 0 (some 300) [] none).queried = true ∧
    (getOrCreateMcpClient initMcpCache false 0 (some 300) [] none).cache =
      { client := none, tools := [], timestamp := some 0, server_count := 0 } ∧
    (getOrCreateMcpClient
        (getOrCreateMcpClient initMcpCache false 0 (some 300) [] none).cache
        false 1 (some 300) [] none).queried = true := by
  decide

/-- Counterexample to claim C8.  A construction in which every backend fails
(healthy servers exist but `MultiServerMCPClient` construction raises) does
*not* leave the cache without an entry: `get_or_create_mcp_client` swallows
the exception, returns `(None, [])` as an ordinary value, and writes a
`(None, [], timestamp=now)` entry into the cache — refuting "the miss is
surfaced as a `ResourceUnavailable` error and the cache stores no entry"
for this cache. -/
theorem hard_failure_cached_counterexample :
    (getOrCreateMcpClient initMcpCache false 5 (some 300) ["s1"] none).cache ≠
      initMcpCache ∧
    (getOrCreateMcpClient initMcpCache false 5 (some 300) ["s1"] none).cache.timestamp =
      some 5 ∧
    (getOrCreateMcpClient initMcpCache false 5 (some 300) ["s1"] none).client = none := by
  decide

/-- Claim C8 as amended.  Hard-failure handling differs per cache.  Deep-agent
checkpoint factory: when the Redis backend and the PostgreSQL pool both fail
to construct (basic auth), the exception propagates to the caller and the
module state is exactly unchanged — no entry is cached, so the next call
retries from scratch.  MCP tool-client cache: a construction failure is not
raised; the call returns `(None, [])` and records a `(None, [], now)` entry,
which the validity check never accepts, so the next call still reruns the
query-and-construct path (and succeeds once the backend recovers). -/
theorem hard_failure_no_negative_caching
    (env : CkptEnv) (s : CkptState) (agent : String)
    (hurl : env.redisUrl = true) (hauth : env.authMethod = "basic")
    (hnoR : lookupA agent s.redis_checkpointers = none)
    (hnoP : lookupA agent s.connection_pools = none)
    (hfailR : env.redisAttempt = none) (hfailP : env.pgPoolAttempt = none)
    (c : McpCache) (hcold : c.client = none)
    (now now' : Int) (ttlOpt : Option Int) (servers : List String)
    (hsrv : servers.isEmpty = false) (cl : Client) (tls : List Tool) :
    getCheckpointer env s agent =
      { result := none, state := s, closedRedis := [], closedPools := [] } ∧
    (getOrCreateMcpClient c false now ttlOpt servers none).client = none ∧
    (getOrCreateMcpClient c false now ttlOpt servers none).cache =
      { client := none, tools := [], timestamp := some now, server_count := 0 } ∧
    (getOrCreateMcpClient
        (getOrCreateMcpClient c false now ttlOpt servers none).cache
        false now' ttlOpt servers (some (cl, tls))).queried = true ∧
    (getOrCreateMcpClient
        (getOrCreateMcpClient c false now ttlOpt servers none).cache
        false now' ttlOpt servers (some (cl, tls))).client = some cl := by
  refine ⟨?_, ?_⟩
  · unfold getCheckpointer
    rw [hurl, hnoR, hfailR]
    unfold getCheckpointerPg
    rw [hnoP]
    simp [hauth, hnoP, hfailP]
  · unfold getOrCreateMcpClient mcpRebuild
    rw [hcold]
    cases hts : c.timestamp <;> simp [hsrv]

/-- Concrete run of claim C8 as amended: both checkpoint backends fail on an
empty module state; the MCP build fails once and succeeds on the retry. -/
theorem hard_failure_no_negative_caching_witness :
    getCheckpointer ⟨true, 1, none, none, true, "basic", 0, true⟩ ⟨[], [], [], [], []⟩ "deep_agent" =
      { result := none, state := ⟨[], [], [], [], []⟩, closedRedis := [], closedPools := [] } ∧
    (getOrCreateMcpClient
        (getOrCreateMcpClient initMcpCache false 0 (some 300) ["s1"] none).cache
        false 1 (some 300) ["s1"] (some (⟨4⟩, [⟨"t"⟩]))).client = some ⟨4⟩ := by
  have h := hard_failure_no_negative_caching
    ⟨true, 1, none, none, true, "basic", 0, true⟩ ⟨[], [], [], [], []⟩ "deep_agent"
    rfl rfl rfl rfl rfl rfl initMcpCache rfl 0 1 (some 300) ["s1"] rfl ⟨4⟩ [⟨"t"⟩]
  exact ⟨h.1, h.2.2.2.2⟩

/-! Single flight (C9). -/

/-- The hot MCP cache written by a successful cold-start build. -/
def mcpHotCache (now : Int) (cl : Client) (tls : List Tool)
    (servers : List String) : McpCache :=
  { client := some cl, tools := tls, timestamp := some now,
    server_count := servers.length }

theorem mcp_hot_hit (now : Int) (ttlOpt : Option Int) (servers : List String)
    (build : Option (Client × List Tool)) (cl : Client) (tls : List Tool)
    (httl : 0 < ttlOpt.getD 300) :
    getOrCreateMcpClient (mcpHotCache now cl tls servers) false now ttlOpt
      servers build =
      { client := some cl, tools := tls, cache := mcpHotCache now cl tls servers,
        queried := false } := by
  unfold getOrCreateMcpClient mcpHotCache
  simp
  omega

theorem mcpSerialized_hot (now : Int) (ttlOpt : Option Int)
    (servers : List String) (build : Option (Client × List Tool))
    (cl : Client) (tls : List Tool) (httl : 0 < ttlOpt.getD 300) :
    ∀ n, mcpSerialized now ttlOpt servers build n (mcpHotCache now cl tls servers) =
      (List.replicate n (some cl, tls), mcpHotCache now cl tls servers, 0) := by
  intro n
  induction n with
  | zero => rfl
  | succ m ih =>
    unfold mcpSerialized
    rw [mcp_hot_hit now ttlOpt servers build cl tls httl]
    simp [ih, List.replicate_succ]

/-- The hot middleware-cache slot written by a successful cold-start build. -/
def mwHotCache (modelId : Int) (qs : List MWRow) (sts : List Stage)
    (now : Int) : MwCache :=
  { llm_model_id := some modelId, middlewares := sts, timestamp := some now,
    config_hash := some (calculateConfigHash qs) }

theorem mw_hot_hit (modelId : Int) (qs : List MWRow)
    (inst : MWRow → Option Stage) (now : Int) (sts : List Stage) :
    getMiddleware (mwHotCache modelId qs sts now) modelId qs inst now false =
      { result := .ok sts, cache := mwHotCache modelId qs sts now,
        rebuilt := false } := by
  have hv : isCacheValid (mwHotCache modelId qs sts now) modelId
      (calculateConfigHash qs) now = true := by
    unfold isCacheValid mwHotCache CACHE_TTL_SECONDS
    simp
  unfold getMiddleware
  simp only [hv, Bool.not_false, Bool.true_and, if_true]
  simp [mwHotCache]

theorem mwSerialized_hot (modelId : Int) (qs : List MWRow)
    (inst : MWRow → Option Stage) (now : Int) (sts : List Stage) :
    ∀ n, mwSerialized modelId qs inst now n (mwHotCache modelId qs sts now) =
      (List.replicate n (.ok sts), mwHotCache modelId qs sts now, 0) := by
  intro n
  induction n with
  | zero => rfl
  | succ m ih =>
    unfold mwSerialized
    rw [mw_hot_hit modelId qs inst now sts]
    simp [ih, List.replicate_succ]

/-- Claim C9.  Single flight: `N ≥ 1` concurrent calls on the same cold key,
serialised by the key's per-event-loop lock, invoke the miss path — the
healthy-server database query plus client construction for the MCP cache,
the instantiation pass for the middleware cache — exactly once, and every
call returns the identical resource instance (the same client-and-tools
pair, the same pipeline list). -/
theorem single_flight_serialized
    (now : Int) (ttlOpt : Option Int) (servers : List String)
    (cl : Client) (tls : List Tool)
    (hsrv : servers.isEmpty = false) (httl : 0 < ttlOpt.getD 300)
    (modelId : Int) (qs : List MWRow) (inst : MWRow → Option Stage)
    (sts : List Stage) (hbuild : buildStages inst qs = .ok sts) :
    (∀ n, mcpSerialized now ttlOpt servers (some (cl, tls)) (n + 1) initMcpCache =
      (List.replicate (n + 1) (some cl, tls), mcpHotCache now cl tls servers, 1)) ∧
    (∀ n, mwSerialized modelId qs inst now (n + 1) initMwCache =
      (List.replicate (n + 1) (.ok sts), mwHotCache modelId qs sts now, 1)) := by
  constructor
  · intro n
    have hcold : getOrCreateMcpClient initMcpCache false now ttlOpt servers
        (some (cl, tls)) =
        { client := some cl, tools := tls,
          cache := mcpHotCache now cl tls servers, queried := true } := by
      unfold getOrCreateMcpClient mcpRebuild
        initMcpCache mcpHotCache
      simp [hsrv]
    unfold mcpSerialized
    rw [hcold]
    simp [mcpSerialized_hot now ttlOpt servers (some (cl, tls)) cl tls httl n,
      List.replicate_succ]
  · intro n
    have hv : isCacheValid initMwCache modelId (calculateConfigHash qs) now = false := by
      unfold isCacheValid initMwCache
      simp
    have hcold : getMiddleware initMwCache modelId qs inst now false =
        { result := .ok sts, cache := mwHotCache modelId qs sts now,
          rebuilt := true } := by
      unfold getMiddleware
      simp [hv, hbuild, mwHotCache]
    unfold mwSerialized
    rw [hcold]
    simp [mwSerialized_hot modelId qs inst now sts n, List.replicate_succ]

/-- Concrete run of claim C9: three concurrent calls on each cold key — one
build, three identical results. -/
theorem single_flight_serialized_witness :
    mcpSerialized 0 (some 300) ["s1"] (some (⟨4⟩, [⟨"t"⟩])) 3 initMcpCache =
      (List.replicate 3 (some ⟨4⟩, [⟨"t"⟩]), mcpHotCache 0 ⟨4⟩ [⟨"t"⟩] ["s1"], 1) ∧
    mwSerialized 7 [] (fun _ => none) 0 3 initMwCache =
      (List.replicate 3 (.ok []), mwHotCache 7 [] [] 0, 1) := by
  have h := single_flight_serialized 0 (some 300) ["s1"] ⟨4⟩ [⟨"t"⟩]
    rfl (by decide) 7 [] (fun _ => none) [] rfl
  exact ⟨h.1 2, h.2 2⟩

/-! Execution-context affinity (C7). -/

/-- Claim C7.  Context-affinity rebuild: a cached Redis checkpointer, a cached
PostgreSQL connection pool, or a cached Redis memory store whose recorded
event-loop id differs from the current loop's id is closed on the next
access (best-effort — the conclusions hold for every value of `closeOk`,
so a close failure is never propagated) and rebuilt under the current loop
with its id recorded.  These caches carry no TTL (only Azure
service-principal pools age out, excluded here by `authMethod = "basic"`),
so no amount of freshness prevents the rebuild. -/
theorem context_affinity_rebuild
    (env : CkptEnv) (s : CkptState) (agent : String)
    (envS : StoreEnv) (ss : StoreState) :
    (∀ (old ck' : RedisSaver) (lid : Nat),
      env.redisUrl = true →
      lookupA agent s.redis_checkpointers = some old →
      lookupA agent s.checkpointer_event_loops = some lid →
      lid ≠ env.currentLoopId →
      env.redisAttempt = some ck' →
      getCheckpointer env s agent =
        { result := some (.redis ck'),
          state := { s with
            redis_checkpointers := setA agent ck' s.redis_checkpointers,
            checkpointer_event_loops :=
              setA agent env.currentLoopId s.checkpointer_event_loops },
          closedRedis := [old], closedPools := [] }) ∧
    (∀ (old pl' : PgPool) (lid : Nat),
      env.redisUrl = false → env.authMethod = "basic" →
      lookupA agent s.connection_pools = some old →
      lookupA agent s.pool_event_loops = some lid →
      lid ≠ env.currentLoopId →
      env.pgPoolAttempt = some pl' → env.pgSetupOk = true →
      getCheckpointer env s agent =
        { result := some (.postgres pl'),
          state :=
            { s with
              connection_pools := setA agent pl' (eraseA agent s.connection_pools),
              pool_creation_times := eraseA agent s.pool_creation_times,
              pool_event_loops :=
                setA agent env.currentLoopId (eraseA agent s.pool_event_loops) },
          closedRedis := [], closedPools := [old] }) ∧
    (∀ (old st' : RedisStore) (lid : Nat),
      envS.redisUrl = true →
      lookupA agent ss.redis_stores = some old →
      lookupA agent ss.store_event_loops = some lid →
      lid ≠ envS.currentLoopId →
      envS.storeAttempt = some st' →
      getStore envS ss agent =
        { result := .redis st',
          state := { ss with
            redis_stores := setA agent st' ss.redis_stores,
            store_event_loops := setA agent envS.currentLoopId ss.store_event_loops },
          closedStores := [old] }) := by
  refine ⟨?_, ?_, ?_⟩
  · intro old ck' lid hurl hold hlid hne hatt
    unfold getCheckpointer
    rw [hurl, hold, hlid, hatt]
    simp [hne]
  · intro old pl' lid hurl hauth hold hlid hne hatt hsetup
    unfold getCheckpointer getCheckpointerPg
    rw [hurl]
    simp only [Bool.false_eq_true, if_false, hold, hlid, hauth]
    simp [hne, lookupA_eraseA_self, hatt, hsetup]
  · intro old st' lid hurl hold hlid hne hatt
    unfold getStore
    rw [hurl, hold, hlid, hatt]
    simp [hne]

/-- Concrete run of claim C7: each of the three resources was recorded under
loop 1, the current loop is 2, and the close of the stale handle may fail
(`closeOk = false`) without affecting the rebuild. -/
theorem context_affinity_rebuild_witness :
    getCheckpointer ⟨true, 2, some ⟨10⟩, none, true, "basic", 0, false⟩
        ⟨[("a", ⟨9⟩)], [("a", 1)], [], [], []⟩ "a" =
      { result := some (.redis ⟨10⟩),
        state := ⟨[("a", ⟨10⟩)], [("a", 2)], [], [], []⟩,
        closedRedis := [⟨9⟩], closedPools := [] } ∧
    getCheckpointer ⟨false, 2, none, some ⟨20⟩, true, "basic", 0, false⟩
        ⟨[], [], [("a", ⟨19⟩)], [("a", 0)], [("a", 1)]⟩ "a" =
      { result := some (.postgres ⟨20⟩),
        state := ⟨[], [], [("a", ⟨20⟩)], [], [("a", 2)]⟩,
        closedRedis := [], closedPools := [⟨19⟩] } ∧
    getStore ⟨true, 2, some ⟨30⟩, ⟨0⟩, false⟩ ⟨[("a", ⟨29⟩)], [("a", 1)], []⟩ "a" =
      { result := .redis ⟨30⟩,
        state := ⟨[("a", ⟨30⟩)], [("a", 2)], []⟩,
        closedStores := [⟨29⟩] } := by
  have h := context_affinity_rebuild
    ⟨true, 2, some ⟨10⟩, none, true, "basic", 0, false⟩
    ⟨[("a", ⟨9⟩)], [("a", 1)], [], [], []⟩ "a"
    ⟨true, 2, some ⟨30⟩, ⟨0⟩, false⟩ ⟨[("a", ⟨29⟩)], [("a", 1)], []⟩
  have h2 := context_affinity_rebuild
    ⟨false, 2, none, some ⟨20⟩, true, "basic", 0, false⟩
    ⟨[], [], [("a", ⟨19⟩)], [("a", 0)], [("a", 1)]⟩ "a"
    ⟨true, 2, some ⟨30⟩, ⟨0⟩, false⟩ ⟨[("a", ⟨29⟩)], [("a", 1)], []⟩
  refine ⟨?_, ?_, ?_⟩
  · have := h.1 ⟨9⟩ ⟨10⟩ 1 rfl rfl rfl (by decide) rfl
    simpa [setA] using this
  · have := h2.2.1 ⟨19⟩ ⟨20⟩ 1 rfl rfl rfl rfl (by decide) rfl rfl
    simpa [setA, eraseA] using this
  · have := h.2.2 ⟨29⟩ ⟨30⟩ 1 rfl rfl rfl (by decide) rfl
    simpa [setA] using this

/-! Thread deletion idempotence (C6). -/

theorem eraseThreadKeys_clears (tid : String) :
    ∀ stor : CkptStorage, ∀ p ∈ eraseThreadKeys tid stor,
      keyMatchesThread tid p.1 = false := by
  intro stor
  induction stor with
  | nil => intro p hp; simp [eraseThreadKeys] at hp
  | cons q rest ih =>
    intro p hp
    obtain ⟨k, v⟩ := q
    by_cases hm : keyMatchesThread tid k
    · rw [eraseThreadKeys, if_pos hm] at hp
      exact ih p hp
    · rw [eraseThreadKeys, if_neg hm] at hp
      rcases List.mem_cons.mp hp with h | h
      · rw [h]
        exact Bool.eq_false_iff.mpr hm
      · exact ih p h

theorem memorySaverAget_none_iff (stor : CkptStorage) (tid : String) :
    memorySaverAget stor tid = none ↔
      ∀ p ∈ stor, keyMatchesThread tid p.1 = false := by
  unfold memorySaverAget keyMatchesThread
  constructor
  · intro h p hp
    by_cases hcond : stor.any (fun p => p.1.head? = some tid)
    · rw [if_pos hcond] at h
      exact absurd h (by simp)
    · have := List.any_eq_false.mp (Bool.eq_false_iff.mpr hcond) p hp
      simpa using this
  · intro h
    have : stor.any (fun p => p.1.head? = some tid) = false :=
      List.any_eq_false.mpr (fun p hp => by simpa using h p hp)
    simp [this]

theorem clearCheckpointerForThread_miss (stor : CkptStorage)
    (ts : CkptTimestamps) (tid : String)
    (h : memorySaverAget stor tid = none) :
    clearCheckpointerForThread (some stor) ts tid =
      { returned := false, saver := some stor, tstamps := ts } := by
  unfold clearCheckpointerForThread
  dsimp only
  rw [h]

theorem clearCheckpointerForThread_hit (stor : CkptStorage)
    (ts : CkptTimestamps) (tid : String) (u : Unit)
    (hu : memorySaverAget stor tid = some u)
    (hkeys : ((stor.map Prod.fst).filter (keyMatchesThread tid)).isEmpty = false) :
    clearCheckpointerForThread (some stor) ts tid =
      { returned := true, saver := some (eraseThreadKeys tid stor),
        tstamps := eraseA [tid] ts } := by
  unfold clearCheckpointerForThread
  dsimp only
  rw [hu]
  simp [hkeys]

/-- Claim C6.  Thread deletion idempotence: `clear_checkpointer_for_thread` on
a missing saver or a never-created thread returns `False` (and, being a
total function of the module state, never errors); when checkpoints exist
for the thread, the first call returns `True` and removes every storage
entry whose key begins with the thread id, and an immediately repeated call
returns `False`. -/
theorem thread_deletion_idempotence
    (stor : CkptStorage) (ts : CkptTimestamps) (tid : String) :
    (clearCheckpointerForThread none ts tid).returned = false ∧
    ((∀ p ∈ stor, keyMatchesThread tid p.1 = false) →
      clearCheckpointerForThread (some stor) ts tid =
        { returned := false, saver := some stor, tstamps := ts }) ∧
    ((∃ p ∈ stor, keyMatchesThread tid p.1 = true) →
      (clearCheckpointerForThread (some stor) ts tid).returned = true ∧
      (∀ p ∈ eraseThreadKeys tid stor, keyMatchesThread tid p.1 = false) ∧
      (clearCheckpointerForThread (some stor) ts tid).saver =
        some (eraseThreadKeys tid stor) ∧
      (clearCheckpointerForThread (some (eraseThreadKeys tid stor))
          (clearCheckpointerForThread (some stor) ts tid).tstamps tid).returned =
        false) := by
  refine ⟨rfl, ?_, ?_⟩
  · intro hnone
    exact clearCheckpointerForThread_miss stor ts tid
      ((memorySaverAget_none_iff stor tid).mpr hnone)
  · intro ⟨p, hp, hmatch⟩
    have hag : memorySaverAget stor tid ≠ none := by
      intro h
      have := (memorySaverAget_none_iff stor tid).mp h p hp
      rw [hmatch] at this
      exact absurd this (by simp)
    obtain ⟨u, hu⟩ := Option.ne_none_iff_exists'.mp hag
    have hkeys : ((stor.map Prod.fst).filter (keyMatchesThread tid)).isEmpty = false := by
      have hpmem : p.1 ∈ (stor.map Prod.fst).filter (keyMatchesThread tid) :=
        List.mem_filter.mpr ⟨List.mem_map_of_mem Prod.fst hp, hmatch⟩
      cases hEmp : ((stor.map Prod.fst).filter (keyMatchesThread tid)).isEmpty
      · rfl
      · rw [List.isEmpty_iff] at hEmp
        rw [hEmp] at hpmem
        exact absurd hpmem (by simp)
    have hsecond : memorySaverAget (eraseThreadKeys tid stor) tid = none :=
      (memorySaverAget_none_iff _ tid).mpr (eraseThreadKeys_clears tid stor)
    have hfirst := clearCheckpointerForThread_hit stor ts tid u hu hkeys
    refine ⟨?_, eraseThreadKeys_clears tid stor, ?_, ?_⟩
    · rw [hfirst]
    · rw [hfirst]
    · rw [hfirst, clearCheckpointerForThread_miss _ _ _ hsecond]

/-- Concrete run of claim C6: thread `"abc"` has two checkpoint keys and a
bystander thread `"xyz"`; deleting `"zzz"` returns `False`, deleting
`"abc"` returns `True` then `False`. -/
theorem thread_deletion_idempotence_witness :
    (clearCheckpointerForThread
        (some [(["abc"], "c1"), (["abc", "r2"], "c2"), (["xyz"], "c3")])
        [(["abc"], 0)] "zzz").returned = false ∧
    (clearCheckpointerForThread
        (some [(["abc"], "c1"), (["abc", "r2"], "c2"), (["xyz"], "c3")])
        [(["abc"], 0)] "abc").returned = true ∧
    (clearCheckpointerForThread
        (some (eraseThreadKeys "abc"
          [(["abc"], "c1"), (["abc", "r2"], "c2"), (["xyz"], "c3")]))
        (clearCheckpointerForThread
          (some [(["abc"], "c1"), (["abc", "r2"], "c2"), (["xyz"], "c3")])
          [(["abc"], 0)] "abc").tstamps "abc").returned = false := by
  have hmiss := (thread_deletion_idempotence
      [(["abc"], "c1"), (["abc", "r2"], "c2"), (["xyz"], "c3")]
      [(["abc"], 0)] "zzz").2.1 (by decide)
  have hhit := (thread_deletion_idempotence
      [(["abc"], "c1"), (["abc", "r2"], "c2"), (["xyz"], "c3")]
      [(["abc"], 0)] "abc").2.2 ⟨(["abc"], "c1"), by decide, by decide⟩
  exact ⟨by rw [hmiss], hhit.1, hhit.2.2.2⟩

/-! Sweep correctness (C4) and the middleware-cache side effect (C5). -/

theorem sweepStep_frame (now θ : Int) (st : SweepSt) (k' k : ThreadKey)
    (h : k' ≠ k) :
    lookupA k (sweepStep now θ st k').storage = lookupA k st.storage ∧
    lookupA k (sweepStep now θ st k').tstamps = lookupA k st.tstamps := by
  unfold sweepStep
  cases hl : lookupA k' st.tstamps with
  | some t =>
    by_cases hexp : now - t > θ
    · simp [hexp, lookupA_eraseA_ne _ _ _ h]
    · simp [hexp]
  | none => simp [lookupA_setA_ne _ _ _ _ h]

theorem runSweep_frame (now θ : Int) (ks : List ThreadKey) (k : ThreadKey)
    (hk : k ∉ ks) :
    ∀ st : SweepSt,
      lookupA k (runSweep now θ st ks).storage = lookupA k st.storage ∧
      lookupA k (runSweep now θ st ks).tstamps = lookupA k st.tstamps := by
  induction ks with
  | nil => intro st; exact ⟨rfl, rfl⟩
  | cons k' ks ih =>
    intro st
    have hk' : k' ≠ k := fun h => hk (h ▸ List.mem_cons_self k' ks)
    have hrest : k ∉ ks := fun h => hk (List.mem_cons_of_mem k' h)
    have hstep := sweepStep_frame now θ st k' k hk'
    have htail := ih hrest (sweepStep now θ st k')
    exact ⟨htail.1.trans hstep.1, htail.2.trans hstep.2⟩

/-- The sweep loop, evaluated at a key occurring once in the processed key
list, acts on that key exactly as one `sweepStep` over the initial state. -/
theorem runSweep_at_key (now θ : Int) (st : SweepSt) (l₁ l₂ : List ThreadKey)
    (k : ThreadKey) (h₁ : k ∉ l₁) (h₂ : k ∉ l₂) :
    lookupA k (runSweep now θ st (l₁ ++ k :: l₂)).storage =
      lookupA k (sweepStep now θ (runSweep now θ st l₁) k).storage ∧
    lookupA k (runSweep now θ st (l₁ ++ k :: l₂)).tstamps =
      lookupA k (sweepStep now θ (runSweep now θ st l₁) k).tstamps := by
  have hsplit : runSweep now θ st (l₁ ++ k :: l₂) =
      runSweep now θ (sweepStep now θ (runSweep now θ st l₁) k) l₂ := by
    unfold runSweep
    rw [List.foldl_append]
    rfl
  rw [hsplit]
  exact runSweep_frame now θ l₂ k h₂ _

/-- All branches of `cleanup_expired_checkpoints` (with a live saver) leave
the same storage and timestamp table: those of the completed sweep. -/
theorem cleanup_state_eq (stor : CkptStorage) (ts : CkptTimestamps)
    (mw : MwModule) (now ttl_minutes : Int) :
    (cleanupExpiredCheckpoints (some stor) ts mw now ttl_minutes).saver =
      some (runSweep now (ttl_minutes * 60 + 30) ⟨stor, ts, 0⟩
        (stor.map Prod.fst)).storage ∧
    (cleanupExpiredCheckpoints (some stor) ts mw now ttl_minutes).tstamps =
      (runSweep now (ttl_minutes * 60 + 30) ⟨stor, ts, 0⟩
        (stor.map Prod.fst)).tstamps := by
  unfold cleanupExpiredCheckpoints
  dsimp only
  by_cases hdel : (runSweep now (ttl_minutes * 60 + 30) ⟨stor, ts, 0⟩
      (stor.map Prod.fst)).deleted > 0
  · cases hclear : clearMiddlewareCache mw with
    | none => simp [hdel, hclear]
    | some p => simp [hdel, hclear]
  · simp [hdel]

/-- Claim C4.  Sweep correctness, pointwise over every thread key in storage
(`θ = ttl·60 + 30` is the TTL plus the 30-second grace period):
a key whose recorded age exceeds `θ` is deleted from storage and from the
timestamp table; a key within `θ` is left untouched with its timestamp
intact — so with `ttl = 5 min`, ages 2 min and 10 min, exactly the
10-minute thread dies; and a key with no recorded timestamp survives the
sweep and is back-filled with `last_write = now`. -/
theorem sweep_correctness
    (stor : CkptStorage) (ts : CkptTimestamps) (mw : MwModule)
    (now ttl_minutes : Int) (k : ThreadKey)
    (hnd : (stor.map Prod.fst).Nodup)
    (hk : k ∈ stor.map Prod.fst) :
    (∀ t, lookupA k ts = some t → now - t > ttl_minutes * 60 + 30 →
      lookupA k ((cleanupExpiredCheckpoints (some stor) ts mw now
        ttl_minutes).saver.getD []) = none ∧
      lookupA k (cleanupExpiredCheckpoints (some stor) ts mw now
        ttl_minutes).tstamps = none) ∧
    (∀ t, lookupA k ts = some t → ¬(now - t > ttl_minutes * 60 + 30) →
      lookupA k ((cleanupExpiredCheckpoints (some stor) ts mw now
        ttl_minutes).saver.getD []) = lookupA k stor ∧
      lookupA k (cleanupExpiredCheckpoints (some stor) ts mw now
        ttl_minutes).tstamps = some t) ∧
    (lookupA k ts = none →
      lookupA k ((cleanupExpiredCheckpoints (some stor) ts mw now
        ttl_minutes).saver.getD []) = lookupA k stor ∧
      lookupA k (cleanupExpiredCheckpoints (some stor) ts mw now
        ttl_minutes).tstamps = some now) := by
  obtain ⟨l₁, l₂, hdecomp⟩ := List.append_of_mem hk
  have hnd' := hdecomp ▸ hnd
  have h₁ : k ∉ l₁ := by
    intro hmem
    have hdis := (List.nodup_append.mp hnd').2.2
    exact hdis hmem (List.mem_cons_self k l₂)
  have h₂ : k ∉ l₂ := by
    have := (List.nodup_append.mp hnd').2.1
    exact (List.nodup_cons.mp this).1
  set θ := ttl_minutes * 60 + 30 with hθ
  set st0 : SweepSt := ⟨stor, ts, 0⟩ with hst0
  have hframe := runSweep_frame now θ l₁ k h₁ st0
  have hkey := runSweep_at_key now θ st0 l₁ l₂ k h₁ h₂
  rw [← hdecomp] at hkey
  have hstate := cleanup_state_eq stor ts mw now ttl_minutes
  rw [hstate.1, hstate.2] at *
  refine ⟨?_, ?_, ?_⟩
  · intro t hts hexp
    have hstep : lookupA k (sweepStep now θ (runSweep now θ st0 l₁) k).storage = none ∧
        lookupA k (sweepStep now θ (runSweep now θ st0 l₁) k).tstamps = none := by
      unfold sweepStep
      rw [hframe.2, hst0]
      dsimp only
      rw [hts]
      simp [hexp, lookupA_eraseA_self]
    constructor
    · simp only [Option.getD_some]
      rw [hkey.1, hstep.1]
    · rw [hkey.2, hstep.2]
  · intro t hts hexp
    have hstep : lookupA k (sweepStep now θ (runSweep now θ st0 l₁) k).storage =
          lookupA k stor ∧
        lookupA k (sweepStep now θ (runSweep now θ st0 l₁) k).tstamps = some t := by
      unfold sweepStep
      rw [hframe.2, hst0]
      dsimp only
      rw [hts]
      simp only [if_neg hexp]
      exact ⟨hframe.1, hframe.2.trans hts⟩
    constructor
    · simp only [Option.getD_some]
      rw [hkey.1, hstep.1]
    · rw [hkey.2, hstep.2]
  · intro hts
    have hstep : lookupA k (sweepStep now θ (runSweep now θ st0 l₁) k).storage =
          lookupA k stor ∧
        lookupA k (sweepStep now θ (runSweep now θ st0 l₁) k).tstamps = some now := by
      unfold sweepStep
      rw [hframe.2, hst0]
      dsimp only
      rw [hts]
      exact ⟨hframe.1, lookupA_setA_self _ _ _⟩
    constructor
    · simp only [Option.getD_some]
      rw [hkey.1, hstep.1]
    · rw [hkey.2, hstep.2]

/-- Concrete run of claim C4: `now = 1000`, `ttl = 5 min` (threshold 330 s);
thread `t10` is 600 s old (deleted), thread `t2` is 120 s old (kept), and
thread `tnew` has no recorded timestamp (kept and back-filled with 1000). -/
theorem sweep_correctness_witness :
    (lookupA ["t10"] ((cleanupExpiredCheckpoints
        (some [(["t10"], "a"), (["t2"], "b"), (["tnew"], "c")])
        [(["t10"], 400), (["t2"], 880)] ⟨false, initMwCache⟩ 1000 5).saver.getD [])
      = none ∧
     lookupA ["t10"] (cleanupExpiredCheckpoints
        (some [(["t10"], "a"), (["t2"], "b"), (["tnew"], "c")])
        [(["t10"], 400), (["t2"], 880)] ⟨false, initMwCache⟩ 1000 5).tstamps
      = none) ∧
    (lookupA ["t2"] ((cleanupExpiredCheckpoints
        (some [(["t10"], "a"), (["t2"], "b"), (["tnew"], "c")])
        [(["t10"], 400), (["t2"], 880)] ⟨false, initMwCache⟩ 1000 5).saver.getD [])
      = some "b" ∧
     lookupA ["t2"] (cleanupExpiredCheckpoints
        (some [(["t10"], "a"), (["t2"], "b"), (["tnew"], "c")])
        [(["t10"], 400), (["t2"], 880)] ⟨false, initMwCache⟩ 1000 5).tstamps
      = some 880) ∧
    (lookupA ["tnew"] ((cleanupExpiredCheckpoints
        (some [(["t10"], "a"), (["t2"], "b"), (["tnew"], "c")])
        [(["t10"], 400), (["t2"], 880)] ⟨false, initMwCache⟩ 1000 5).saver.getD [])
      = some "c" ∧
     lookupA ["tnew"] (cleanupExpiredCheckpoints
        (some [(["t10"], "a"), (["t2"], "b"), (["tnew"], "c")])
        [(["t10"], 400), (["t2"], 880)] ⟨false, initMwCache⟩ 1000 5).tstamps
      = some 1000) := by
  have h10 := sweep_correctness
    [(["t10"], "a"), (["t2"], "b"), (["tnew"], "c")]
    [(["t10"], 400), (["t2"], 880)] ⟨false, initMwCache⟩ 1000 5 ["t10"]
    (by decide) (by decide)
  have h2 := sweep_correctness
    [(["t10"], "a"), (["t2"], "b"), (["tnew"], "c")]
    [(["t10"], 400), (["t2"], 880)] ⟨false, initMwCache⟩ 1000 5 ["t2"]
    (by decide) (by decide)
  have hn := sweep_correctness
    [(["t10"], "a"), (["t2"], "b"), (["tnew"], "c")]
    [(["t10"], 400), (["t2"], 880)] ⟨false, initMwCache⟩ 1000 5 ["tnew"]
    (by decide) (by decide)
  exact ⟨⟨(h10.1 400 (by decide) (by decide)).1, (h10.1 400 (by decide) (by decide)).2⟩,
    ⟨((h2.2.1 880 (by decide) (by decide)).1).trans (by decide),
      (h2.2.1 880 (by decide) (by decide)).2⟩,
    ⟨((hn.2.2 (by decide)).1).trans (by decide), (hn.2.2 (by decide)).2⟩⟩

/-- Claim C5.  The claimed side effect never happens: `clear_middleware_cache`
acquires the non-reentrant `_cache_lock` and then awaits
`get_middleware_cache_stats`, which acquires the same lock again, so the
call never completes for *any* module state; consequently a
`cleanup_expired_checkpoints` run that deleted an expired checkpoint
(here one thread 600 s old with `ttl = 5 min`) blocks inside
`loop.run_until_complete(clear_middleware_cache())` — it deletes the
checkpoint but never returns its result, and the middleware cache slot is
never cleared, contradicting both the claim and the function's own
docstring. -/
theorem cleanup_never_clears_middleware_cache :
    (∀ m : MwModule, clearMiddlewareCache m = none) ∧
    (cleanupExpiredCheckpoints (some [(["old"], "blob")]) [(["old"], 400)]
        ⟨false, ⟨some 7, [⟨1⟩], some 0, some []⟩⟩ 1000 5).returns = none ∧
    (cleanupExpiredCheckpoints (some [(["old"], "blob")]) [(["old"], 400)]
        ⟨false, ⟨some 7, [⟨1⟩], some 0, some []⟩⟩ 1000 5).mw =
      ⟨false, ⟨some 7, [⟨1⟩], some 0, some []⟩⟩ ∧
    (cleanupExpiredCheckpoints (some [(["old"], "blob")]) [(["old"], 400)]
        ⟨false, ⟨some 7, [⟨1⟩], some 0, some []⟩⟩ 1000 5).saver = some [] := by
  refine ⟨?_, ?_⟩
  · intro m
    unfold clearMiddlewareCache getMiddlewareCacheStats
    by_cases h : m.lock <;> simp [h]
  · decide

end AiOps
